import Mathlib

/-!
Verification of the Airthings BLE scan-and-read orchestrator
(`scan_airthings_devices.py`), shallowly embedded in Lean.

Every external effect of the script — console printing, error-level
logging, the `BleakScanner.discover` call and the per-device
`update_device` read — is reified as one step of an event trace.
The results of the two external BLE primitives are passed in as
parameters: `found` (respectively `discover n`) stands for the device
list returned by a discovery call, and `update_device` for the
library's read primitive, which either returns a decoded reading or
fails with one of the two recognized exception kinds.
-/

/-- A BLE advertisement record as returned by `BleakScanner.discover`:
an address and an optional advertised name. -/
structure DiscoveredDevice where
  address : String
  name : Option String
deriving DecidableEq

/-- The `model` object of a decoded reading, exposing `product_name`. -/
structure DeviceModel where
  product_name : String
deriving DecidableEq

/-- A decoded sensor snapshot as returned by `update_device`: the fields
that `print_device` renders. The sensor mapping is the item list of a
Python dict — (name, rendered value) entries with unique names — whose
insertion order is irrelevant to the program. -/
structure AirthingsDevice where
  name : String
  model : Option DeviceModel
  manufacturer : String
  identifier : String
  sw_version : String
  address : String
  sensors : List (String × String)
deriving DecidableEq

/-- The two failure kinds of a per-device read: `UnsupportedDeviceError`,
and any other exception together with its rendered message. -/
inductive ReadError where
  | unsupportedDevice : ReadError
  | generic : String → ReadError
deriving DecidableEq

/-- One observable step of a run: a BLE discovery request, a
connect-and-read attempt on one device, a console print, or an
error-level log line. -/
inductive Event where
  | discoverCall : Rat → Event
  | readAttempt : String → Event
  | printScanning : Rat → Event
  | printNoDevices : Event
  | printFound : Nat → Event
  | printNotFound : String → Event
  | printRunWithoutConnect : Event
  | printConnecting : String → Event
  | printAttempting : String → Option String → Event
  | printDeviceBlock : List String → Event
  | logError : String → Event
deriving DecidableEq

/-- Lexicographic comparison of character sequences by code point:
Python's `<=` on strings. -/
def lexLe : List Char → List Char → Bool
  | [], _ => true
  | _ :: _, [] => false
  | a :: as, b :: bs => if a < b then true else if b < a then false else lexLe as bs

/-- Python's `<=` on `(key, value)` string pairs, as used by `sorted` on
dict items: lexicographic, keys first, values breaking ties. -/
def pairLe (a b : String × String) : Bool :=
  if a.1 = b.1 then lexLe a.2.data b.2.data else lexLe a.1.data b.1.data

/-- The pair order as a proposition, for the sorting lemmas. -/
def PairLeR (a b : String × String) : Prop := pairLe a b = true

instance : DecidableRel PairLeR :=
  fun a b => inferInstanceAs (Decidable (pairLe a b = true))

/-- Python's `sorted(device.sensors.items())`: the ordered arrangement of
the entries under the pair order. Python uses a stable comparison sort;
since the pair order is antisymmetric the sorted arrangement is unique,
so it is modelled by insertion sort, which is extensionally equal. -/
def sortedPairs (l : List (String × String)) : List (String × String) :=
  l.insertionSort PairLeR

/-- Python's `str.lower()`, per-character lowering, used for the
case-insensitive address comparison. -/
def lower (s : String) : String := String.mk (s.data.map Char.toLower)

/-- The log message of `connect_and_read`'s `UnsupportedDeviceError`
handler. -/
def unsupportedTargetedMsg : String := "The device is not a supported Airthings device."

/-- The log message of `connect_and_read`'s generic exception handler. -/
def genericTargetedMsg (msg : String) : String :=
  "Error connecting/reading device: " ++ msg

/-- The log message of `auto_find_and_read`'s `UnsupportedDeviceError`
handler. -/
def unsupportedAutoMsg (addr : String) : String :=
  "Unsupported Airthings device at " ++ addr

/-- The log message of `auto_find_and_read`'s generic exception
handler. -/
def genericAutoMsg (addr msg : String) : String :=
  "Error reading " ++ (addr ++ (": " ++ msg))

/-- `print_device(device)`: the console lines printed for one reading.
The model line renders `device.model.product_name if device.model else
device.model`, where Python prints the absent value `None` as "None";
the sensor lines are the sorted dict items; the final `print("\n")`
emits a block separator. -/
def print_device (device : AirthingsDevice) : List String :=
  ["Device info:",
   "  Name: " ++ device.name,
   "  Model: " ++ (match device.model with
                   | some m => m.product_name
                   | none => "None"),
   "  Manufacturer: " ++ device.manufacturer,
   "  Serial: " ++ device.identifier,
   "  Firmware: " ++ device.sw_version,
   "  Address: " ++ device.address,
   "Sensors:"]
  ++ (sortedPairs device.sensors).map (fun kv => "  " ++ kv.1 ++ ": " ++ kv.2)
  ++ ["\n"]

/-- `scan(timeout)`: prints the banner, issues the discovery call (whose
result is the parameter `found`), then either reports that no devices
were found and returns the empty list, or reports the count and returns
the devices. -/
def scan (timeout : Rat) (found : List DiscoveredDevice) :
    List Event × List DiscoveredDevice :=
  if found.isEmpty then
    ([Event.printScanning timeout, Event.discoverCall timeout,
      Event.printNoDevices], [])
  else
    ([Event.printScanning timeout, Event.discoverCall timeout,
      Event.printFound found.length], found)

/-- `connect_and_read(address, timeout, is_metric)`: one discovery call,
a linear search for the first device whose lowered address equals the
lowered target address, and — only when a match exists — one guarded
read whose two exception handlers log and swallow the failure. -/
def connect_and_read (address : String) (timeout : Rat) (is_metric : Bool)
    (found : List DiscoveredDevice)
    (update_device : Bool → DiscoveredDevice → Except ReadError AirthingsDevice) :
    List Event :=
  match found.find? (fun d => lower d.address == lower address) with
  | none =>
      [Event.discoverCall timeout, Event.printNotFound address,
       Event.printRunWithoutConnect]
  | some target =>
      [Event.discoverCall timeout, Event.printConnecting target.address,
       Event.readAttempt target.address] ++
      match update_device is_metric target with
      | Except.ok device => [Event.printDeviceBlock (print_device device)]
      | Except.error ReadError.unsupportedDevice =>
          [Event.logError unsupportedTargetedMsg]
      | Except.error (ReadError.generic msg) =>
          [Event.logError (genericTargetedMsg msg)]

/-- The per-device loop of `auto_find_and_read`: announce the attempt,
try the read, print the reading on success, log on either failure kind,
and continue with the remaining devices. -/
def readLoop (is_metric : Bool)
    (update_device : Bool → DiscoveredDevice → Except ReadError AirthingsDevice) :
    List DiscoveredDevice → List Event
  | [] => []
  | d :: rest =>
      ([Event.printAttempting d.address d.name, Event.readAttempt d.address] ++
       match update_device is_metric d with
       | Except.ok device => [Event.printDeviceBlock (print_device device)]
       | Except.error ReadError.unsupportedDevice =>
           [Event.logError (unsupportedAutoMsg d.address)]
       | Except.error (ReadError.generic msg) =>
           [Event.logError (genericAutoMsg d.address msg)]) ++
      readLoop is_metric update_device rest

/-- `auto_find_and_read(timeout, is_metric)`: one discovery call, then
either the single no-devices message or the per-device read loop. -/
def auto_find_and_read (timeout : Rat) (is_metric : Bool)
    (found : List DiscoveredDevice)
    (update_device : Bool → DiscoveredDevice → Except ReadError AirthingsDevice) :
    List Event :=
  Event.discoverCall timeout ::
    (if found.isEmpty then [Event.printNoDevices]
     else readLoop is_metric update_device found)

/-- The parsed CLI arguments: `--connect` (default absent), `--timeout`
(default 8.0), `--imperial` and `--debug`. -/
structure Args where
  connect : Option String
  timeout : Rat
  imperial : Bool
  debug : Bool

/-- The non-targeted branch of `main`: one `scan` pass followed by an
independent `auto_find_and_read` pass, each issuing its own discovery
call. `discover n` is the result of the n-th discovery call of the
run; `is_metric` is `not args.imperial`. -/
def mainAutoBranch (args : Args) (discover : Nat → List DiscoveredDevice)
    (update_device : Bool → DiscoveredDevice → Except ReadError AirthingsDevice) :
    List Event :=
  (scan args.timeout (discover 0)).1 ++
  auto_find_and_read args.timeout (!args.imperial) (discover 1) update_device

namespace Script

/-- `main()`: targeted mode when `args.connect` is truthy (present and
non-empty), otherwise the scan + auto-discover branch. -/
def main (args : Args) (discover : Nat → List DiscoveredDevice)
    (update_device : Bool → DiscoveredDevice → Except ReadError AirthingsDevice) :
    List Event :=
  match args.connect with
  | some a =>
      if a.isEmpty then mainAutoBranch args discover update_device
      else connect_and_read a args.timeout (!args.imperial) (discover 0) update_device
  | none => mainAutoBranch args discover update_device

end Script

/-- The addresses against which a read (`update_device`) was attempted,
in order. -/
def readAttempts (tr : List Event) : List String :=
  tr.filterMap (fun e => match e with | Event.readAttempt a => some a | _ => none)

/-- The printed device blocks of a trace, in order. -/
def printedBlocks (tr : List Event) : List (List String) :=
  tr.filterMap (fun e => match e with | Event.printDeviceBlock ls => some ls | _ => none)

/-- The error-level log messages of a trace, in order. -/
def loggedErrors (tr : List Event) : List String :=
  tr.filterMap (fun e => match e with | Event.logError m => some m | _ => none)

/-- The timeouts of the discovery calls issued, in order. -/
def discoverCalls (tr : List Event) : List Rat :=
  tr.filterMap (fun e => match e with | Event.discoverCall t => some t | _ => none)

/-- How many times a given event occurs in a trace. -/
def countEvent (tr : List Event) (e : Event) : Nat :=
  tr.countP (fun x => decide (x = e))

/-- Whether `needle` occurs as a contiguous substring of `hay`. -/
def occursIn (needle hay : String) : Bool :=
  hay.data.tails.any (fun t => needle.data.isPrefixOf t)

/-- A sample decoded reading, used to instantiate the general theorems. -/
def sampleReading : AirthingsDevice :=
  { name := "Corentium Home 2"
    model := some { product_name := "Corentium Home 2" }
    manufacturer := "Airthings AS"
    identifier := "2930012345"
    sw_version := "1.2.3"
    address := "AA:BB:CC:DD:EE:FF"
    sensors := [("radon_1day_avg", "42"), ("humidity", "30.0")] }

/-- A sample discovered device. -/
def devA : DiscoveredDevice := { address := "A0:01", name := some "dev-a" }

/-- A sample discovered device with an Airthings-style address. -/
def devB : DiscoveredDevice := { address := "AA:BB:CC:DD:EE:FF", name := some "Airthings" }

/-- A sample discovered device with no advertised name. -/
def devC : DiscoveredDevice := { address := "C0:03", name := none }

/-- A second sample device carrying the same address as `devB` up to
case, used to exercise duplicate-match selection. -/
def devBdup : DiscoveredDevice := { address := "aa:bb:cc:dd:ee:ff", name := none }

/-- A sample read primitive that rejects `devB` as unsupported and
decodes every other device. -/
def updSample : Bool → DiscoveredDevice → Except ReadError AirthingsDevice :=
  fun _ d =>
    if d.address = devB.address then Except.error ReadError.unsupportedDevice
    else Except.ok { sampleReading with address := d.address }

/-- A sample read primitive that fails on every device. -/
def updFail : Bool → DiscoveredDevice → Except ReadError AirthingsDevice :=
  fun _ _ => Except.error ReadError.unsupportedDevice

theorem lexLe_refl : ∀ l : List Char, lexLe l l = true
  | [] => rfl
  | a :: as => by simp [lexLe, lt_irrefl a, lexLe_refl as]

theorem lexLe_total : ∀ x y : List Char, lexLe x y = true ∨ lexLe y x = true
  | [], _ => Or.inl rfl
  | _ :: _, [] => Or.inr rfl
  | a :: as, b :: bs => by
      rcases lt_trichotomy a b with hab | rfl | hab
      · exact Or.inl (by simp [lexLe, hab])
      · rcases lexLe_total as bs with h | h
        · exact Or.inl (by simp [lexLe, lt_irrefl a, h])
        · exact Or.inr (by simp [lexLe, lt_irrefl a, h])
      · exact Or.inr (by simp [lexLe, hab])

theorem lexLe_cons (a b : Char) (as bs : List Char) :
    lexLe (a :: as) (b :: bs) =
      if a < b then true else if b < a then false else lexLe as bs := rfl

theorem lexLe_trans : ∀ x y z : List Char,
    lexLe x y = true → lexLe y z = true → lexLe x z = true
  | [], _, _, _, _ => rfl
  | _ :: _, [], _, h1, _ => by simp [lexLe] at h1
  | _ :: _, _ :: _, [], _, h2 => by simp [lexLe] at h2
  | a :: as, b :: bs, c :: cs, h1, h2 => by
      rw [lexLe_cons] at h1 h2 ⊢
      rcases lt_trichotomy a b with hab | rfl | hab
      · rcases lt_trichotomy b c with hbc | rfl | hbc
        · rw [if_pos (lt_trans hab hbc)]
        · rw [if_pos hab]
        · rw [if_neg (asymm hbc), if_pos hbc] at h2
          exact absurd h2 Bool.false_ne_true
      · rw [if_neg (lt_irrefl a), if_neg (lt_irrefl a)] at h1
        rcases lt_trichotomy a c with hac | rfl | hac
        · rw [if_pos hac]
        · rw [if_neg (lt_irrefl a), if_neg (lt_irrefl a)] at h2 ⊢
          exact lexLe_trans as bs cs h1 h2
        · rw [if_neg (asymm hac), if_pos hac] at h2
          exact absurd h2 Bool.false_ne_true
      · rw [if_neg (asymm hab), if_pos hab] at h1
        exact absurd h1 Bool.false_ne_true

theorem lexLe_antisymm : ∀ x y : List Char,
    lexLe x y = true → lexLe y x = true → x = y
  | [], [], _, _ => rfl
  | [], _ :: _, _, h2 => by simp [lexLe] at h2
  | _ :: _, [], h1, _ => by simp [lexLe] at h1
  | a :: as, b :: bs, h1, h2 => by
      rw [lexLe_cons] at h1 h2
      rcases lt_trichotomy a b with hab | rfl | hab
      · rw [if_neg (asymm hab), if_pos hab] at h2
        exact absurd h2 Bool.false_ne_true
      · rw [if_neg (lt_irrefl a), if_neg (lt_irrefl a)] at h1 h2
        rw [lexLe_antisymm as bs h1 h2]
      · rw [if_neg (asymm hab), if_pos hab] at h1
        exact absurd h1 Bool.false_ne_true

theorem pairLe_refl (a : String × String) : PairLeR a a := by
  simp [PairLeR, pairLe, lexLe_refl]

theorem pairLe_total : ∀ a b : String × String, PairLeR a b ∨ PairLeR b a := by
  rintro ⟨a1, a2⟩ ⟨b1, b2⟩
  unfold PairLeR pairLe
  dsimp
  by_cases h : a1 = b1
  · subst h
    rw [if_pos rfl, if_pos rfl]
    exact lexLe_total _ _
  · rw [if_neg h, if_neg (Ne.symm h)]
    exact lexLe_total _ _

theorem pairLe_trans : ∀ a b c : String × String,
    PairLeR a b → PairLeR b c → PairLeR a c := by
  rintro ⟨a1, a2⟩ ⟨b1, b2⟩ ⟨c1, c2⟩ h1 h2
  unfold PairLeR pairLe at h1 h2 ⊢
  dsimp at h1 h2 ⊢
  by_cases hab : a1 = b1 <;> by_cases hbc : b1 = c1
  · subst hab
    subst hbc
    rw [if_pos rfl] at h1 h2 ⊢
    exact lexLe_trans _ _ _ h1 h2
  · subst hab
    rw [if_neg hbc] at h2 ⊢
    exact h2
  · subst hbc
    rw [if_neg hab] at h1 ⊢
    exact h1
  · rw [if_neg hab] at h1
    rw [if_neg hbc] at h2
    by_cases hac : a1 = c1
    · subst hac
      exact absurd (String.ext (lexLe_antisymm _ _ h1 h2)) hab
    · rw [if_neg hac]
      exact lexLe_trans _ _ _ h1 h2

theorem pairLe_antisymm : ∀ a b : String × String,
    PairLeR a b → PairLeR b a → a = b := by
  rintro ⟨a1, a2⟩ ⟨b1, b2⟩ h1 h2
  unfold PairLeR pairLe at h1 h2
  dsimp at h1 h2
  by_cases h : a1 = b1
  · subst h
    rw [if_pos rfl] at h1 h2
    rw [String.ext (lexLe_antisymm _ _ h1 h2)]
  · rw [if_neg h] at h1
    rw [if_neg (Ne.symm h)] at h2
    exact absurd (String.ext (lexLe_antisymm _ _ h1 h2)) h

instance : IsTotal (String × String) PairLeR := ⟨pairLe_total⟩

instance : IsTrans (String × String) PairLeR := ⟨pairLe_trans⟩

instance : IsAntisymm (String × String) PairLeR := ⟨pairLe_antisymm⟩

theorem sortedPairs_sorted (l : List (String × String)) :
    List.Sorted PairLeR (sortedPairs l) :=
  List.sorted_insertionSort PairLeR l

theorem sortedPairs_perm (l : List (String × String)) :
    (sortedPairs l).Perm l :=
  List.perm_insertionSort PairLeR l

theorem sortedPairs_congr {l₁ l₂ : List (String × String)} (h : l₁.Perm l₂) :
    sortedPairs l₁ = sortedPairs l₂ :=
  List.eq_of_perm_of_sorted
    ((sortedPairs_perm l₁).trans (h.trans (sortedPairs_perm l₂).symm))
    (sortedPairs_sorted l₁) (sortedPairs_sorted l₂)

theorem pairLe_keys {a b : String × String} (h : PairLeR a b) :
    lexLe a.1.data b.1.data = true := by
  unfold PairLeR pairLe at h
  by_cases e : a.1 = b.1
  · rw [e]
    exact lexLe_refl _
  · simpa [e] using h

theorem occursIn_suffix (pre s : String) : occursIn s (pre ++ s) = true := by
  unfold occursIn
  rw [List.any_eq_true]
  refine ⟨s.data, ?_, ?_⟩
  · rw [List.mem_tails, String.data_append]
    exact List.suffix_append _ _
  · rw [List.isPrefixOf_iff_prefix]

theorem occursIn_middle (pre s post : String) :
    occursIn s (pre ++ (s ++ post)) = true := by
  unfold occursIn
  rw [List.any_eq_true]
  refine ⟨s.data ++ post.data, ?_, ?_⟩
  · rw [List.mem_tails, String.data_append, String.data_append]
    exact List.suffix_append _ _
  · rw [List.isPrefixOf_iff_prefix]
    exact List.prefix_append _ _

theorem readLoop_readAttempts (m : Bool)
    (upd : Bool → DiscoveredDevice → Except ReadError AirthingsDevice) :
    ∀ ds : List DiscoveredDevice,
      readAttempts (readLoop m upd ds) = ds.map DiscoveredDevice.address
  | [] => rfl
  | d :: rest => by
      have ih := readLoop_readAttempts m upd rest
      simp only [readAttempts] at ih ⊢
      rcases h : upd m d with e | dev
      · cases e <;> simp [readLoop, h, List.filterMap_append, ih]
      · simp [readLoop, h, List.filterMap_append, ih]

theorem readLoop_discoverCalls (m : Bool)
    (upd : Bool → DiscoveredDevice → Except ReadError AirthingsDevice) :
    ∀ ds : List DiscoveredDevice, discoverCalls (readLoop m upd ds) = []
  | [] => rfl
  | d :: rest => by
      have ih := readLoop_discoverCalls m upd rest
      simp only [discoverCalls] at ih ⊢
      rcases h : upd m d with e | dev
      · cases e <;> simp [readLoop, h, List.filterMap_append, ih]
      · simp [readLoop, h, List.filterMap_append, ih]

theorem find?_first_match {α : Type} (p : α → Bool) :
    ∀ (pre : List α) (d : α) (post : List α),
      (∀ x ∈ pre, p x = false) → p d = true →
      (pre ++ d :: post).find? p = some d
  | [], d, post, _, hd => by simp [List.find?_cons_of_pos _ hd]
  | x :: xs, d, post, hpre, hd => by
      rw [List.cons_append,
        List.find?_cons_of_neg _ (by simp [hpre x (by simp)])]
      exact find?_first_match p xs d post (fun y hy => hpre y (by simp [hy])) hd

theorem readAttempts_append (t1 t2 : List Event) :
    readAttempts (t1 ++ t2) = readAttempts t1 ++ readAttempts t2 :=
  List.filterMap_append t1 t2 _

theorem discoverCalls_append (t1 t2 : List Event) :
    discoverCalls (t1 ++ t2) = discoverCalls t1 ++ discoverCalls t2 :=
  List.filterMap_append t1 t2 _

theorem readLoop_mem_log (m : Bool)
    (upd : Bool → DiscoveredDevice → Except ReadError AirthingsDevice)
    (d : DiscoveredDevice) (e : ReadError) :
    ∀ ds : List DiscoveredDevice, d ∈ ds → upd m d = Except.error e →
      ∃ msg, Event.logError msg ∈ readLoop m upd ds ∧
        occursIn d.address msg = true
  | [], hd, _ => absurd hd (List.not_mem_nil d)
  | x :: rest, hd, he => by
      rcases List.mem_cons.mp hd with rfl | hd'
      · refine ⟨match e with
          | ReadError.unsupportedDevice => unsupportedAutoMsg d.address
          | ReadError.generic msg => genericAutoMsg d.address msg, ?_, ?_⟩
        · cases e <;> simp [readLoop, he]
        · cases e
          · exact occursIn_suffix "Unsupported Airthings device at " d.address
          · exact occursIn_middle "Error reading " d.address _
      · obtain ⟨msg, hmem, hocc⟩ := readLoop_mem_log m upd d e rest hd' he
        exact ⟨msg, List.mem_append_right _ hmem, hocc⟩

/-- C1 (counterexample): at the concrete timeout 0 — a value ≤ 0 — the
discovery step is not rejected: `scan` proceeds to issue the discovery
call (the discovery I/O is attempted) and surfaces no configuration
error, producing its ordinary trace. -/
theorem scan_zero_timeout_attempts_discovery :
    ((0 : Rat) ≤ 0) ∧
    (scan 0 []).1 =
      [Event.printScanning 0, Event.discoverCall 0, Event.printNoDevices] ∧
    Event.discoverCall 0 ∈ (scan 0 []).1 := by
  refine ⟨le_refl 0, rfl, ?_⟩
  simp [scan]

/-- C1 (amended): a timeout ≤ 0 is not validated anywhere: `scan` prints
the banner and issues the discovery call with the unchanged non-positive
timeout instead of rejecting it before any discovery I/O, and no error
is surfaced to the caller. -/
theorem scan_no_timeout_validation (t : Rat) (found : List DiscoveredDevice)
    (h : t ≤ 0) :
    Event.discoverCall t ∈ (scan t found).1 ∧
    (scan t found).1.head? = some (Event.printScanning t) ∧
    loggedErrors (scan t found).1 = [] := by
  unfold scan
  by_cases hf : found.isEmpty <;> simp [hf, loggedErrors]

/-- C1 (witness): the amended theorem at the concrete timeout -1 with an
empty discovery result. -/
theorem scan_no_timeout_validation_witness :
    Event.discoverCall (-1) ∈ (scan (-1) []).1 ∧
    (scan (-1) []).1.head? = some (Event.printScanning (-1)) ∧
    loggedErrors (scan (-1) []).1 = [] :=
  scan_no_timeout_validation (-1) [] (by norm_num)

/-- C6: on an empty discovery result, `auto_find_and_read` prints exactly
one no-devices message and performs zero read attempts. -/
theorem auto_empty_one_message_no_reads (t : Rat) (m : Bool)
    (upd : Bool → DiscoveredDevice → Except ReadError AirthingsDevice) :
    auto_find_and_read t m [] upd =
      [Event.discoverCall t, Event.printNoDevices] ∧
    countEvent (auto_find_and_read t m [] upd) Event.printNoDevices = 1 ∧
    readAttempts (auto_find_and_read t m [] upd) = [] :=
  ⟨rfl, rfl, rfl⟩

/-- C9: a reading whose model field is absent does not make
`print_device` fail: the model line is guarded, so the absent value is
rendered as-is ("None", as Python prints it) instead of a
`product_name` access. -/
theorem print_device_model_none (r : AirthingsDevice) (h : r.model = none) :
    (print_device r)[2]? = some "  Model: None" := by
  unfold print_device
  rw [h]
  rfl

/-- C9 (witness): the theorem at a concrete reading with absent model. -/
theorem print_device_model_none_witness :
    (print_device { sampleReading with model := none })[2]? =
      some "  Model: None" :=
  print_device_model_none { sampleReading with model := none } rfl

/-- C5: `print_device` renders the sensor mapping sorted lexicographically
by sensor name, regardless of the input ordering: permuting the sensor
items leaves the rendered block unchanged, and the rendered key sequence
is lexicographically ordered. -/
theorem print_device_sensors_sorted (r : AirthingsDevice)
    (s' : List (String × String)) (hperm : r.sensors.Perm s') :
    print_device { r with sensors := s' } = print_device r ∧
    List.Pairwise (fun k1 k2 : String => lexLe k1.data k2.data = true)
      ((sortedPairs r.sensors).map Prod.fst) := by
  constructor
  · unfold print_device
    dsimp
    rw [sortedPairs_congr hperm.symm]
  · exact List.Pairwise.map Prod.fst (fun a b hab => pairLe_keys hab)
      (sortedPairs_sorted r.sensors)

/-- C5 (witness): the theorem at a concrete reading and a concrete
permutation of its sensor items. -/
theorem print_device_sensors_sorted_witness :
    print_device { sampleReading with
        sensors := [("humidity", "30.0"), ("radon_1day_avg", "42")] } =
      print_device sampleReading ∧
    List.Pairwise (fun k1 k2 : String => lexLe k1.data k2.data = true)
      ((sortedPairs sampleReading.sensors).map Prod.fst) :=
  print_device_sensors_sorted sampleReading
    [("humidity", "30.0"), ("radon_1day_avg", "42")] (by decide)

/-- C2: on a discovery result [A, B, C] where reading B fails with the
unsupported-device error and A and C decode, `auto_find_and_read` prints
the readings of A and C in discovery order, logs exactly one
unsupported-device message (for B), and attempts every device — no
per-device failure aborts the remaining devices. -/
theorem auto_read_continues_past_unsupported
    (t : Rat) (m : Bool) (A B C : DiscoveredDevice)
    (upd : Bool → DiscoveredDevice → Except ReadError AirthingsDevice)
    (a c : AirthingsDevice)
    (hA : upd m A = Except.ok a)
    (hB : upd m B = Except.error ReadError.unsupportedDevice)
    (hC : upd m C = Except.ok c) :
    printedBlocks (auto_find_and_read t m [A, B, C] upd) =
      [print_device a, print_device c] ∧
    loggedErrors (auto_find_and_read t m [A, B, C] upd) =
      [unsupportedAutoMsg B.address] ∧
    readAttempts (auto_find_and_read t m [A, B, C] upd) =
      [A.address, B.address, C.address] := by
  refine ⟨?_, ?_, ?_⟩ <;>
    simp [auto_find_and_read, readLoop, hA, hB, hC,
      printedBlocks, loggedErrors, readAttempts, List.filterMap_append]

/-- C2 (witness): the theorem at concrete devices, where the sample read
primitive rejects the middle device and decodes the other two. -/
theorem auto_read_continues_past_unsupported_witness :
    printedBlocks (auto_find_and_read 8 true [devA, devB, devC] updSample) =
      [print_device { sampleReading with address := devA.address },
       print_device { sampleReading with address := devC.address }] ∧
    loggedErrors (auto_find_and_read 8 true [devA, devB, devC] updSample) =
      [unsupportedAutoMsg devB.address] ∧
    readAttempts (auto_find_and_read 8 true [devA, devB, devC] updSample) =
      [devA.address, devB.address, devC.address] :=
  auto_read_continues_past_unsupported 8 true devA devB devC updSample
    { sampleReading with address := devA.address }
    { sampleReading with address := devC.address }
    rfl rfl rfl

/-- C3: a targeted run whose address matches no discovered device
case-insensitively prints the not-found message, performs zero read
attempts, logs no error, and the run terminates normally with its
ordinary trace. -/
theorem connect_not_found_zero_reads
    (address : String) (t : Rat) (m : Bool) (found : List DiscoveredDevice)
    (upd : Bool → DiscoveredDevice → Except ReadError AirthingsDevice)
    (h : ∀ d ∈ found, lower d.address ≠ lower address) :
    connect_and_read address t m found upd =
      [Event.discoverCall t, Event.printNotFound address,
       Event.printRunWithoutConnect] ∧
    readAttempts (connect_and_read address t m found upd) = [] ∧
    loggedErrors (connect_and_read address t m found upd) = [] := by
  have hf : found.find? (fun d => lower d.address == lower address) = none := by
    rw [List.find?_eq_none]
    intro x hx
    simpa using h x hx
  have htr : connect_and_read address t m found upd =
      [Event.discoverCall t, Event.printNotFound address,
       Event.printRunWithoutConnect] := by
    unfold connect_and_read
    rw [hf]
  refine ⟨htr, ?_, ?_⟩ <;> rw [htr] <;> rfl

/-- C3 (witness): the theorem at a concrete address absent from a
concrete discovery result. -/
theorem connect_not_found_zero_reads_witness :
    connect_and_read "aa:bb" 8 true [devC] updFail =
      [Event.discoverCall 8, Event.printNotFound "aa:bb",
       Event.printRunWithoutConnect] ∧
    readAttempts (connect_and_read "aa:bb" 8 true [devC] updFail) = [] ∧
    loggedErrors (connect_and_read "aa:bb" 8 true [devC] updFail) = [] :=
  connect_not_found_zero_reads "aa:bb" 8 true [devC] updFail (by decide)

/-- C4: a targeted run whose address matches some discovered device
case-insensitively performs exactly one read attempt, against a device
whose lowered address equals the lowered requested address. -/
theorem connect_found_one_matching_read
    (address : String) (t : Rat) (m : Bool) (found : List DiscoveredDevice)
    (upd : Bool → DiscoveredDevice → Except ReadError AirthingsDevice)
    (h : ∃ d ∈ found, lower d.address = lower address) :
    ∃ a, readAttempts (connect_and_read address t m found upd) = [a] ∧
      lower a = lower address := by
  have hs : (found.find? (fun d => lower d.address == lower address)).isSome = true := by
    rw [List.find?_isSome]
    obtain ⟨d, hd, he⟩ := h
    exact ⟨d, hd, by simp [he]⟩
  obtain ⟨target, htarget⟩ := Option.isSome_iff_exists.mp hs
  refine ⟨target.address, ?_, ?_⟩
  · unfold connect_and_read readAttempts
    rw [htarget]
    rcases hres : upd m target with e | dev
    · cases e <;> simp [hres, List.filterMap_append]
    · simp [hres, List.filterMap_append]
  · simpa using List.find?_some htarget

/-- C4 (witness): the theorem at a concrete case-differing address
matching a concrete discovered device. -/
theorem connect_found_one_matching_read_witness :
    ∃ a, readAttempts
        (connect_and_read "aa:bb:cc:dd:ee:ff" 8 true [devB] updFail) = [a] ∧
      lower a = lower "aa:bb:cc:dd:ee:ff" :=
  connect_found_one_matching_read "aa:bb:cc:dd:ee:ff" 8 true [devB] updFail
    (by decide)

/-- C7 (counterexample): in targeted mode a per-device read failure is
logged without the device address: at a concrete failing targeted run
the single error-level log message does not contain the device
address. -/
theorem targeted_log_omits_address :
    loggedErrors (connect_and_read "AA:BB:CC:DD:EE:FF" 8 true [devB] updFail) =
      [unsupportedTargetedMsg] ∧
    occursIn "AA:BB:CC:DD:EE:FF" unsupportedTargetedMsg = false :=
  ⟨rfl, by decide⟩

/-- C7 (amended): every per-device read failure in either mode is caught,
logged at error level, and does not propagate — auto-discover mode keeps
attempting every discovered device and its log message contains the
device address, while targeted mode logs the fixed handler messages
(which omit the address) and completes its trace normally. -/
theorem read_failures_logged_not_propagated :
    (∀ (t : Rat) (m : Bool) (found : List DiscoveredDevice)
       (upd : Bool → DiscoveredDevice → Except ReadError AirthingsDevice)
       (d : DiscoveredDevice) (e : ReadError),
       d ∈ found → upd m d = Except.error e →
       (∃ msg, Event.logError msg ∈ auto_find_and_read t m found upd ∧
          occursIn d.address msg = true) ∧
       readAttempts (auto_find_and_read t m found upd) =
         found.map DiscoveredDevice.address) ∧
    (∀ (address : String) (t : Rat) (m : Bool) (found : List DiscoveredDevice)
       (upd : Bool → DiscoveredDevice → Except ReadError AirthingsDevice)
       (target : DiscoveredDevice) (e : ReadError),
       found.find? (fun d => lower d.address == lower address) = some target →
       upd m target = Except.error e →
       connect_and_read address t m found upd =
         [Event.discoverCall t, Event.printConnecting target.address,
          Event.readAttempt target.address,
          Event.logError (match e with
            | ReadError.unsupportedDevice => unsupportedTargetedMsg
            | ReadError.generic msg => genericTargetedMsg msg)]) := by
  constructor
  · intro t m found upd d e hd he
    have hne : found.isEmpty = false := by
      cases found
      · exact absurd hd (List.not_mem_nil d)
      · rfl
    constructor
    · obtain ⟨msg, hmem, hocc⟩ := readLoop_mem_log m upd d e found hd he
      refine ⟨msg, ?_, hocc⟩
      simp [auto_find_and_read, hne]
      exact hmem
    · have hrl := readLoop_readAttempts m upd found
      simp only [readAttempts] at hrl ⊢
      simp [auto_find_and_read, hne, hrl]
  · intro address t m found upd target e hfind he
    unfold connect_and_read
    rw [hfind]
    cases e <;> simp [he]

/-- C7 (witness): both parts of the amended theorem at a concrete failing
device in each mode. -/
theorem read_failures_logged_not_propagated_witness :
    ((∃ msg, Event.logError msg ∈ auto_find_and_read 8 true [devB] updFail ∧
        occursIn devB.address msg = true) ∧
     readAttempts (auto_find_and_read 8 true [devB] updFail) =
       [devB].map DiscoveredDevice.address) ∧
    connect_and_read "aa:bb:cc:dd:ee:ff" 8 true [devB] updFail =
      [Event.discoverCall 8, Event.printConnecting devB.address,
       Event.readAttempt devB.address,
       Event.logError unsupportedTargetedMsg] :=
  ⟨read_failures_logged_not_propagated.1 8 true [devB] updFail devB
      ReadError.unsupportedDevice (by decide) rfl,
   read_failures_logged_not_propagated.2 "aa:bb:cc:dd:ee:ff" 8 true [devB]
      updFail devB ReadError.unsupportedDevice (by decide) rfl⟩

/-- C8: when several discovered devices match the target address
case-insensitively, the targeted run reads exactly the first match in
discovery order. -/
theorem connect_reads_first_match
    (address : String) (t : Rat) (m : Bool)
    (upd : Bool → DiscoveredDevice → Except ReadError AirthingsDevice)
    (pre post : List DiscoveredDevice) (d : DiscoveredDevice)
    (hpre : ∀ x ∈ pre, lower x.address ≠ lower address)
    (hd : lower d.address = lower address)
    (hpost : ∃ x ∈ post, lower x.address = lower address) :
    readAttempts (connect_and_read address t m (pre ++ d :: post) upd) =
      [d.address] := by
  have hfind : (pre ++ d :: post).find?
      (fun x => lower x.address == lower address) = some d :=
    find?_first_match _ pre d post (fun x hx => by simp [hpre x hx])
      (by simp [hd])
  unfold connect_and_read readAttempts
  rw [hfind]
  rcases hres : upd m d with e | dev
  · cases e <;> simp [hres, List.filterMap_append]
  · simp [hres, List.filterMap_append]

/-- C8 (witness): the theorem at a concrete discovery result containing
two case-insensitive matches of the target address. -/
theorem connect_reads_first_match_witness :
    readAttempts (connect_and_read "Aa:Bb:Cc:Dd:Ee:Ff" 8 true
        ([devC] ++ devB :: [devBdup]) updFail) = [devB.address] :=
  connect_reads_first_match "Aa:Bb:Cc:Dd:Ee:Ff" 8 true updFail
    [devC] [devBdup] devB (by decide) (by decide) (by decide)

/-- C10: a non-targeted run performs two independent discovery passes —
one in `scan`, one in `auto_find_and_read` — so the devices read are the
second pass's devices while the listing reports the first pass's, and an
empty environment yields the no-devices message twice in one run. -/
theorem main_two_discovery_passes
    (t : Rat) (imp dbg : Bool) (discover : Nat → List DiscoveredDevice)
    (upd : Bool → DiscoveredDevice → Except ReadError AirthingsDevice) :
    discoverCalls (Script.main ⟨none, t, imp, dbg⟩ discover upd) = [t, t] ∧
    readAttempts (Script.main ⟨none, t, imp, dbg⟩ discover upd) =
      (discover 1).map DiscoveredDevice.address ∧
    ((discover 0).isEmpty = false →
      Event.printFound (discover 0).length ∈
        Script.main ⟨none, t, imp, dbg⟩ discover upd) ∧
    (discover 0 = [] → discover 1 = [] →
      countEvent (Script.main ⟨none, t, imp, dbg⟩ discover upd)
        Event.printNoDevices = 2) := by
  have hmain : Script.main ⟨none, t, imp, dbg⟩ discover upd =
      (scan t (discover 0)).1 ++
      auto_find_and_read t (!imp) (discover 1) upd := rfl
  have hscanDC : discoverCalls (scan t (discover 0)).1 = [t] := by
    unfold scan
    by_cases h : (discover 0).isEmpty <;> simp [h, discoverCalls]
  have hautoDC : discoverCalls (auto_find_and_read t (!imp) (discover 1) upd) = [t] := by
    have hrl := readLoop_discoverCalls (!imp) upd (discover 1)
    simp only [discoverCalls] at hrl ⊢
    unfold auto_find_and_read
    by_cases h : (discover 1).isEmpty <;> simp [h, hrl]
  have hscanRA : readAttempts (scan t (discover 0)).1 = [] := by
    unfold scan
    by_cases h : (discover 0).isEmpty <;> simp [h, readAttempts]
  have hautoRA : readAttempts (auto_find_and_read t (!imp) (discover 1) upd) =
      (discover 1).map DiscoveredDevice.address := by
    unfold auto_find_and_read
    cases h1 : discover 1 with
    | nil => simp [readAttempts]
    | cons x xs =>
        have hrl := readLoop_readAttempts (!imp) upd (x :: xs)
        simp only [readAttempts] at hrl ⊢
        simp [hrl]
  refine ⟨?_, ?_, ?_, ?_⟩
  · rw [hmain, discoverCalls_append, hscanDC, hautoDC]
    rfl
  · rw [hmain, readAttempts_append, hscanRA, hautoRA, List.nil_append]
  · intro h0
    rw [hmain]
    apply List.mem_append_left
    unfold scan
    rw [h0]
    simp
  · intro h0 h1
    rw [hmain, h0, h1]
    rfl

/-- C10 (witness): the theorem at an environment with no devices: two
discovery calls, zero reads, and in particular the no-devices message
printed twice. -/
theorem main_two_discovery_passes_witness :
    discoverCalls (Script.main ⟨none, 8, false, false⟩ (fun _ => []) updFail) =
      [8, 8] ∧
    readAttempts (Script.main ⟨none, 8, false, false⟩ (fun _ => []) updFail) = [] ∧
    countEvent (Script.main ⟨none, 8, false, false⟩ (fun _ => []) updFail)
      Event.printNoDevices = 2 := by
  obtain ⟨h1, h2, -, h4⟩ :=
    main_two_discovery_passes 8 false false (fun _ => []) updFail
  exact ⟨h1, by simpa using h2, h4 rfl rfl⟩
